import Mathlib

/-!
# Car-ticket booking API: shallow embedding

A shallow embedding of `src/index.js` (an Express HTTP API over a Postgres
store) together with the schema at the end of that file.  Request handlers
become pure Lean functions from a database state and a request to a response
paired with the new database state.  JSON body fields are `Option JVal`
(absent vs. present JSON value) so that the JavaScript truthiness checks of
the handlers can be modelled exactly.

External collaborators of the source (the `bcryptjs` and `jsonwebtoken`
libraries and the Postgres engine) are not code of this repository; they are
modelled from the spec contracts in sections 4.2 and 4.3: an ideal
collision-free salted hash and an ideal unforgeable MAC.  Postgres behaviour
is modelled per query: unique constraint on users.email, foreign keys of
bookings, the integer cast of query parameters, and ISO-format date literals
for the DATE column.
-/

/-- A JSON value as found in a parsed request body (`express.json()`).
Numbers are modelled as integers; no claim involves fractional values. -/
inductive JVal where
  | jnull
  | jbool (b : Bool)
  | jnum (n : Int)
  | jstr (s : String)
deriving DecidableEq, Repr

/-- JavaScript truthiness of a possibly-absent body field, as used in the
`if (!x || !y)` validation checks: absent, `null`, `false`, `0` and the
empty string are falsy. -/
def truthy : Option JVal → Bool
  | none => false
  | some .jnull => false
  | some (.jbool b) => b
  | some (.jnum n) => n != 0
  | some (.jstr s) => s != ""

/-- Modelled from the spec: the bcryptjs digest (section 4.2), an external
library.  Idealized as a collision-free keyed-by-salt one-way function: the
model digest records the salt and determines the hashed input uniquely. -/
structure Digest where
  salt : Nat
  body : JVal
deriving DecidableEq, Repr

/-- Modelled from the spec: `bcrypt.hash(plaintext, rounds)` with a
randomized per-call salt embedded in the output (section 4.2). -/
def bcryptHash (plaintext : JVal) (salt : Nat) : Digest :=
  ⟨salt, plaintext⟩

/-- Modelled from the spec: `bcrypt.compare(plaintext, digest)`, the
self-contained verify of section 4.2 (the salt lives in the digest). -/
def bcryptCompare (plaintext : JVal) (d : Digest) : Bool :=
  plaintext == d.body

/-- The claim set of a session token: `jwt.sign` is called with payload
`{ id, email }` and the `expiresIn: 1h` option adds the expiry instant. -/
structure Claims where
  id : Nat
  email : JVal
  exp : Nat
deriving DecidableEq, Repr

/-- Modelled from the spec: the HMAC signature over a claim set with the
server-held secret (section 4.3), idealized as unforgeable: the model
signature determines the secret and the signed claims uniquely. -/
def hmac (secret : Nat) (c : Claims) : Nat × Claims :=
  (secret, c)

/-- A signed token: claims plus signature. -/
structure Token where
  claims : Claims
  sig : Nat × Claims
deriving DecidableEq, Repr

/-- Modelled from the spec: `jwt.sign` with payload `id`, `email` and the
expiresIn option, at time `now` in seconds: the expiry is exactly 3600
seconds after issuance (section 4.3). -/
def jwtSign (id : Nat) (email : JVal) (secret : Nat) (now : Nat) : Token :=
  let c : Claims := ⟨id, email, now + 3600⟩
  ⟨c, hmac secret c⟩

/-- What arrives on the wire in place of a token: either a string that does
not even parse as a JWT, or a structurally well-formed signed token. -/
inductive WireToken where
  | malformed (s : String)
  | wellformed (t : Token)
deriving DecidableEq, Repr

/-- Modelled from the spec: `jwt.verify(token, secret)` at time `now`
(section 4.3): checks well-formedness, signature and expiry; any failure is
the same `none`.  A token is expired from its `exp` instant on. -/
def jwtVerify (w : WireToken) (secret : Nat) (now : Nat) : Option Claims :=
  match w with
  | .malformed _ => none
  | .wellformed t =>
      if t.sig = hmac secret t.claims ∧ now < t.claims.exp then
        some t.claims
      else
        none

/-- A row of the `users` table: id SERIAL PRIMARY KEY, name, email UNIQUE,
password TEXT (the bcrypt digest is what the code stores there). -/
structure User where
  id : Nat
  name : JVal
  email : JVal
  password : Digest
deriving DecidableEq, Repr

/-- A row of the `cars` table: id SERIAL PRIMARY KEY, name, details, price. -/
structure Car where
  id : Nat
  name : JVal
  details : JVal
  price : JVal
deriving DecidableEq, Repr

/-- A row of the `bookings` table: id SERIAL PRIMARY KEY, user_id REFERENCES
users, car_id REFERENCES cars, travel_date DATE. -/
structure Booking where
  id : Nat
  user_id : Nat
  car_id : Nat
  travel_date : JVal
deriving DecidableEq, Repr

/-- The database: the three relations plus the SERIAL sequences. -/
structure DBState where
  users : List User
  cars : List Car
  bookings : List Booking
  nextUserId : Nat
  nextCarId : Nat
  nextBookingId : Nat
deriving DecidableEq, Repr

/-- Decimal value of a digit string (helper for the Postgres integer cast). -/
def digitsVal : List Char → Nat → Option Nat
  | [], acc => some acc
  | c :: cs, acc =>
      if c.isDigit then digitsVal cs (acc * 10 + (c.toNat - 48)) else none

/-- The Postgres parse of an INTEGER literal: an optional sign followed by
at least one decimal digit. -/
def pgParseInt (s : String) : Option Int :=
  match s.toList with
  | [] => none
  | '-' :: cs =>
      match cs with
      | [] => none
      | _ => (digitsVal cs 0).map (fun n => -(n : Int))
  | cs => (digitsVal cs 0).map (fun n => (n : Int))

/-- The Postgres cast of a query parameter to INTEGER, as used for
`WHERE id = $1`: an integer passes through, a numeric string is parsed,
NULL compares to nothing (no row matches), anything else is a query error
(the handler catch turns it into a 500). -/
def pgIntParam : JVal → Except Unit (Option Int)
  | .jnum n => .ok (some n)
  | .jstr s =>
      match pgParseInt s with
      | some n => .ok (some n)
      | none => .error ()
  | .jnull => .ok none
  | .jbool _ => .error ()

/-- The Postgres DATE literal check for the `travel_date` column, modelled
for ISO `YYYY-MM-DD` literals (the only format the claims exercise). -/
def isDateLit : JVal → Bool
  | .jstr s =>
      match s.toList with
      | [y1, y2, y3, y4, h1, m1, m2, h2, d1, d2] =>
          y1.isDigit && y2.isDigit && y3.isDigit && y4.isDigit &&
          h1 == '-' && h2 == '-' &&
          m1.isDigit && m2.isDigit && d1.isDigit && d2.isDigit &&
          (let mn := (m1.toNat - 48) * 10 + (m2.toNat - 48)
           let dn := (d1.toNat - 48) * 10 + (d2.toNat - 48)
           decide (1 ≤ mn) && decide (mn ≤ 12) &&
           decide (1 ≤ dn) && decide (dn ≤ 31))
      | _ => false
  | _ => false

/-- Model of `INSERT INTO users(name, email, password)`: the UNIQUE constraint on
email makes the insert fail when the email is already taken; ids come from
the SERIAL sequence. -/
def insertUser (db : DBState) (name email : JVal) (password : Digest) :
    Except Unit DBState :=
  if db.users.any (fun u => u.email == email) then
    .error ()
  else
    .ok { db with
          users := db.users ++ [⟨db.nextUserId, name, email, password⟩],
          nextUserId := db.nextUserId + 1 }

/-- Model of `INSERT INTO bookings(user_id, car_id, travel_date)`: both foreign keys
must resolve and the travel date must be a DATE literal, otherwise the
insert fails (500 in the handler). -/
def insertBooking (db : DBState) (uid cid : Nat) (date : JVal) :
    Except Unit DBState :=
  if db.users.any (fun u => u.id == uid) &&
     db.cars.any (fun c => c.id == cid) &&
     isDateLit date then
    .ok { db with
          bookings := db.bookings ++ [⟨db.nextBookingId, uid, cid, date⟩],
          nextBookingId := db.nextBookingId + 1 }
  else
    .error ()

/-- A row of the join in `GET /bookings`: booking fields plus the joined
car columns, aliased as in the query. -/
structure BookingListRow where
  id : Nat
  travel_date : JVal
  car_name : JVal
  car_details : JVal
  car_price : JVal
deriving DecidableEq, Repr

/-- A row of the join in `GET /bookings/:id`: additionally joins the
owning user. -/
structure BookingRow where
  id : Nat
  travel_date : JVal
  car_name : JVal
  car_details : JVal
  car_price : JVal
  user_name : JVal
  user_email : JVal
deriving DecidableEq, Repr

/-- The response bodies the handlers produce. -/
inductive RespBody where
  | errorMsg (s : String)
  | message (s : String)
  | tokenBody (t : Token)
  | carList (cars : List Car)
  | carOne (car : Car)
  | bookingList (rows : List BookingListRow)
  | bookingOne (row : BookingRow)
deriving DecidableEq, Repr

/-- An HTTP response: status code and JSON body. -/
structure HResp where
  status : Nat
  body : RespBody
deriving DecidableEq, Repr

/-- Body of `POST /register`. -/
structure RegisterBody where
  name : Option JVal
  email : Option JVal
  password : Option JVal
deriving DecidableEq, Repr

/-- Body of `POST /login`. -/
structure LoginBody where
  email : Option JVal
  password : Option JVal
deriving DecidableEq, Repr

/-- Body of `POST /cars`. -/
structure CarBody where
  name : Option JVal
  details : Option JVal
  price : Option JVal
deriving DecidableEq, Repr

/-- Body of `POST /bookings`.  The handler destructures only `car_id` and
`travel_date`; a client-supplied `user_id` field is carried here so that
ignoring it can be stated. -/
structure BookingBody where
  car_id : Option JVal
  travel_date : Option JVal
  user_id : Option JVal
deriving DecidableEq, Repr

/-- Handler of `POST /register`: presence check on name, email, password (JS
truthiness), then hash the password and insert; a store error (in
particular duplicate email) becomes a 500. -/
def register (db : DBState) (b : RegisterBody) (salt : Nat) :
    HResp × DBState :=
  if !(truthy b.name && truthy b.email && truthy b.password) then
    (⟨400, .errorMsg "Name, email and password are required"⟩, db)
  else
    let name := b.name.getD .jnull
    let email := b.email.getD .jnull
    let password := b.password.getD .jnull
    match insertUser db name email (bcryptHash password salt) with
    | .ok db' => (⟨201, .message "User registered successfully"⟩, db')
    | .error _ => (⟨500, .errorMsg "Server error during registration"⟩, db)

/-- Handler of `POST /login`: presence check, then `SELECT * FROM users WHERE email =
$1` taking `rows[0]`; no user and wrong password produce the same 403; on
success a token is signed from the database row. -/
def login (db : DBState) (b : LoginBody) (secret now : Nat) :
    HResp × DBState :=
  if !(truthy b.email && truthy b.password) then
    (⟨400, .errorMsg "Email and password are required"⟩, db)
  else
    let email := b.email.getD .jnull
    let password := b.password.getD .jnull
    match db.users.find? (fun u => u.email == email) with
    | none => (⟨403, .errorMsg "Invalid credentials"⟩, db)
    | some user =>
        if !(bcryptCompare password user.password) then
          (⟨403, .errorMsg "Invalid credentials"⟩, db)
        else
          (⟨200, .tokenBody (jwtSign user.id user.email secret now)⟩, db)

/-- Handler of `GET /cars`: `SELECT * FROM cars ORDER BY id`. -/
def getCars (db : DBState) : HResp × DBState :=
  (⟨200, .carList (db.cars.insertionSort (fun a b => a.id ≤ b.id))⟩, db)

/-- Handler of `POST /cars`: presence check on name, details, price, then insert. -/
def addCar (db : DBState) (b : CarBody) : HResp × DBState :=
  if !(truthy b.name && truthy b.details && truthy b.price) then
    (⟨400, .errorMsg "Name, details and price are required"⟩, db)
  else
    (⟨201, .message "Car added successfully"⟩,
     { db with
       cars := db.cars ++
         [⟨db.nextCarId, b.name.getD .jnull, b.details.getD .jnull,
           b.price.getD .jnull⟩],
       nextCarId := db.nextCarId + 1 })

/-- Handler of `GET /cars/:id`: the URL parameter is a string that Postgres casts to
INTEGER for `WHERE id = $1`; a non-numeric string is a query error (500). -/
def getCar (db : DBState) (id : String) : HResp × DBState :=
  match pgParseInt id with
  | none => (⟨500, .errorMsg "Error fetching car"⟩, db)
  | some cid =>
      match db.cars.filter (fun c => (c.id : Int) == cid) with
      | [] => (⟨404, .errorMsg "Car not found"⟩, db)
      | c :: _ => (⟨200, .carOne c⟩, db)

/-- The authorization header after the split on spaces done by
`authHeader.split(' ')`: `scheme` is the first word (ignored by the code,
as in the source), `second` is the second word when present and nonempty
(both an absent second word and an empty one are falsy in JS). -/
structure AuthHeader where
  scheme : String
  second : Option WireToken
deriving DecidableEq, Repr

/-- Extraction `const token = authHeader && authHeader.split(...)` of the
second word of the authorization header. -/
def bearerToken (h : Option AuthHeader) : Option WireToken :=
  h.bind (fun a => a.second)

/-- The `authenticateToken` middleware: missing token is 401, a token that
fails verification (malformed, bad signature or expired alike) is 403,
otherwise the verified claims are handed to the route handler. -/
def authenticateToken (h : Option AuthHeader) (secret now : Nat)
    (handler : Claims → HResp × DBState) (db : DBState) : HResp × DBState :=
  match bearerToken h with
  | none => (⟨401, .errorMsg "Token missing"⟩, db)
  | some w =>
      match jwtVerify w secret now with
      | none => (⟨403, .errorMsg "Invalid or expired token"⟩, db)
      | some claims => handler claims

/-- The join of `GET /bookings`: bookings of the given user joined with
cars on `b.car_id = c.id`, ordered by booking id descending. -/
def listBookingsQuery (db : DBState) (uid : Nat) : List BookingListRow :=
  ((db.bookings.filter (fun b => b.user_id == uid)).flatMap (fun b =>
      (db.cars.filter (fun c => c.id == b.car_id)).map (fun c =>
        ⟨b.id, b.travel_date, c.name, c.details, c.price⟩))).insertionSort
    (fun a b => b.id ≤ a.id)

/-- Handler of `GET /bookings` (protected): list the authenticated user bookings. -/
def getBookings (db : DBState) (h : Option AuthHeader) (secret now : Nat) :
    HResp × DBState :=
  authenticateToken h secret now (fun claims =>
    (⟨200, .bookingList (listBookingsQuery db claims.id)⟩, db)) db

/-- The join of `GET /bookings/:id`: `WHERE b.id = $1 AND b.user_id = $2`
joined with cars and with the owning user. -/
def getBookingQuery (db : DBState) (bid : Int) (uid : Nat) : List BookingRow :=
  (db.bookings.filter (fun b => (b.id : Int) == bid && b.user_id == uid)).flatMap
    (fun b =>
      (db.cars.filter (fun c => c.id == b.car_id)).flatMap (fun c =>
        (db.users.filter (fun u => u.id == b.user_id)).map (fun u =>
          ⟨b.id, b.travel_date, c.name, c.details, c.price, u.name, u.email⟩)))

/-- Handler of `GET /bookings/:id` (protected): the URL parameter is cast to INTEGER
by Postgres; an empty result — absent id or an id owned by someone else
alike — is 404. -/
def getBooking (db : DBState) (h : Option AuthHeader) (secret now : Nat)
    (id : String) : HResp × DBState :=
  authenticateToken h secret now (fun claims =>
    match pgParseInt id with
    | none => (⟨500, .errorMsg "Error fetching booking"⟩, db)
    | some bid =>
        match getBookingQuery db bid claims.id with
        | [] => (⟨404, .errorMsg "Booking not found"⟩, db)
        | row :: _ => (⟨200, .bookingOne row⟩, db)) db

/-- Handler of `POST /bookings` (protected): presence check on `car_id` and
`travel_date`, then `SELECT * FROM cars WHERE id = $1`; no car is 404;
otherwise insert with `user_id` taken from the verified claims — the body
`user_id` field is never read. -/
def createBooking (db : DBState) (h : Option AuthHeader) (secret now : Nat)
    (b : BookingBody) : HResp × DBState :=
  authenticateToken h secret now (fun claims =>
    if !(truthy b.car_id && truthy b.travel_date) then
      (⟨400, .errorMsg "car_id and travel_date are required"⟩, db)
    else
      match pgIntParam (b.car_id.getD .jnull) with
      | .error _ => (⟨500, .errorMsg "Server error during booking"⟩, db)
      | .ok none => (⟨404, .errorMsg "Car not found"⟩, db)
      | .ok (some cid) =>
          match db.cars.filter (fun c => (c.id : Int) == cid) with
          | [] => (⟨404, .errorMsg "Car not found"⟩, db)
          | _ :: _ =>
              match insertBooking db claims.id cid.toNat
                  (b.travel_date.getD .jnull) with
              | .ok db' => (⟨201, .message "Booking created successfully"⟩, db')
              | .error _ =>
                  (⟨500, .errorMsg "Server error during booking"⟩, db)) db

/-! ## Sample data used by the closed witness theorems -/

/-- A registered user (id 1) with password hashed under salt 10. -/
def anaUser : User := ⟨1, .jstr "Ana", .jstr "ana@x.com", bcryptHash (.jstr "secret") 10⟩

/-- A second registered user (id 2). -/
def bobUser : User := ⟨2, .jstr "Bob", .jstr "hunter@x.com", bcryptHash (.jstr "hunter2") 11⟩

/-- A car in the catalog (id 1). -/
def civicCar : Car := ⟨1, .jstr "Civic", .jstr "sedan", .jnum 20000⟩

/-- A booking (id 1) owned by user 1 for car 1. -/
def anaBooking : Booking := ⟨1, 1, 1, .jstr "2025-01-01"⟩

/-- A populated database. -/
def dbSample : DBState := ⟨[anaUser, bobUser], [civicCar], [anaBooking], 3, 2, 2⟩

/-- A valid token for user 1, signed with secret 7 at time 0. -/
def anaTok : Token := jwtSign 1 (.jstr "ana@x.com") 7 0

/-- A valid token for user 2, signed with secret 7 at time 0. -/
def bobTok : Token := jwtSign 2 (.jstr "hunter@x.com") 7 0

/-! ## Helper lemmas -/

/-- A truthy body field is never the JSON number 0. -/
theorem truthy_ne_jnum_zero {v : JVal} (hv : truthy (some v) = true) :
    v ≠ .jnum 0 := by
  cases v with
  | jnull => simp [truthy] at hv
  | jbool b => intro h; simp at h
  | jnum n =>
      simp only [truthy, bne_iff_ne, ne_eq] at hv
      simp [hv]
  | jstr s => intro h; simp at h

/-- A DATE literal is a truthy body field. -/
theorem isDateLit_truthy {v : JVal} (h : isDateLit v = true) :
    truthy (some v) = true := by
  cases v with
  | jnull => exact absurd h (by decide)
  | jbool b => simp [isDateLit] at h
  | jnum n => simp [isDateLit] at h
  | jstr s =>
      simp only [truthy, bne_iff_ne, ne_eq]
      intro hs
      subst hs
      exact absurd h (by decide)

/-! ## C7: password hash round trip -/

/-- C7: for every plaintext `p` and salt, `verify(p, hash(p))` is true, and
for every `other` different from `p`, `verify(other, hash(p))` is false (in
the ideal collision-free model of bcrypt the probabilistic caveat of the
claim becomes exact). -/
theorem bcrypt_hash_verify_roundtrip (p other : JVal) (salt : Nat)
    (hne : other ≠ p) :
    bcryptCompare p (bcryptHash p salt) = true ∧
    bcryptCompare other (bcryptHash p salt) = false := by
  refine ⟨by simp [bcryptCompare, bcryptHash], ?_⟩
  simp [bcryptCompare, bcryptHash]
  exact hne

/-- Witness for C7 at the plaintexts "secret" and "other" with salt 10. -/
theorem bcrypt_hash_verify_roundtrip_witness :
    bcryptCompare (.jstr "secret") (bcryptHash (.jstr "secret") 10) = true ∧
    bcryptCompare (.jstr "other") (bcryptHash (.jstr "secret") 10) = false :=
  bcrypt_hash_verify_roundtrip (.jstr "secret") (.jstr "other") 10 (by decide)

/-! ## C6: token issue and verify round trip -/

/-- C6: a successful login for user `u` returns exactly the token signed
over the id and email of the database row, whose expiry is exactly one hour
(3600 seconds) after issuance; before that instant it verifies to claims
carrying the id and email of `u`, and at or after that instant verification
fails. -/
theorem login_token_roundtrip (db : DBState) (b : LoginBody)
    (secret t0 now : Nat) (u : User)
    (he : truthy b.email = true) (hp : truthy b.password = true)
    (hfind : db.users.find? (fun v => v.email == b.email.getD .jnull) = some u)
    (hpw : bcryptCompare (b.password.getD .jnull) u.password = true) :
    (login db b secret t0).1
      = ⟨200, .tokenBody (jwtSign u.id u.email secret t0)⟩ ∧
    (jwtSign u.id u.email secret t0).claims.exp = t0 + 3600 ∧
    (now < t0 + 3600 →
      jwtVerify (.wellformed (jwtSign u.id u.email secret t0)) secret now
        = some ⟨u.id, u.email, t0 + 3600⟩) ∧
    (t0 + 3600 ≤ now →
      jwtVerify (.wellformed (jwtSign u.id u.email secret t0)) secret now
        = none) := by
  refine ⟨?_, rfl, ?_, ?_⟩
  · simp [login, he, hp, hfind, hpw]
  · intro hlt
    simp [jwtVerify, jwtSign, hmac, hlt]
  · intro hge
    have hnlt : ¬ now < t0 + 3600 := by omega
    simp [jwtVerify, jwtSign, hmac, hnlt]

/-- Witness for C6: a login of user 1 at time 1000 with secret 7; the token
verifies at time 2000 and is rejected at time 4600 (its exact expiry). -/
theorem login_token_roundtrip_witness :
    (login dbSample ⟨some (.jstr "ana@x.com"), some (.jstr "secret")⟩ 7 1000).1
      = ⟨200, .tokenBody (jwtSign 1 (.jstr "ana@x.com") 7 1000)⟩ ∧
    jwtVerify (.wellformed (jwtSign 1 (.jstr "ana@x.com") 7 1000)) 7 2000
      = some ⟨1, .jstr "ana@x.com", 4600⟩ ∧
    jwtVerify (.wellformed (jwtSign 1 (.jstr "ana@x.com") 7 1000)) 7 4600
      = none := by
  have h1 := login_token_roundtrip dbSample
      ⟨some (.jstr "ana@x.com"), some (.jstr "secret")⟩ 7 1000 2000 anaUser
      (by decide) (by decide) (by decide) (by decide)
  have h2 := login_token_roundtrip dbSample
      ⟨some (.jstr "ana@x.com"), some (.jstr "secret")⟩ 7 1000 4600 anaUser
      (by decide) (by decide) (by decide) (by decide)
  exact ⟨h1.1, h1.2.2.1 (by decide), h2.2.2.2 (by decide)⟩

/-! ## C8: login failure merging -/

/-- C8: an unknown email and a known email with a wrong password produce
exactly the same response, status 403 with the invalid-credentials error,
independently of the secret and the clock. -/
theorem login_failure_merged (db1 db2 : DBState) (b1 b2 : LoginBody)
    (s1 n1 s2 n2 : Nat) (u : User)
    (he1 : truthy b1.email = true) (hp1 : truthy b1.password = true)
    (hnone : db1.users.find? (fun v => v.email == b1.email.getD .jnull) = none)
    (he2 : truthy b2.email = true) (hp2 : truthy b2.password = true)
    (hfind : db2.users.find? (fun v => v.email == b2.email.getD .jnull) = some u)
    (hbad : bcryptCompare (b2.password.getD .jnull) u.password = false) :
    (login db1 b1 s1 n1).1 = ⟨403, .errorMsg "Invalid credentials"⟩ ∧
    (login db2 b2 s2 n2).1 = (login db1 b1 s1 n1).1 := by
  have g1 : (login db1 b1 s1 n1).1 = ⟨403, .errorMsg "Invalid credentials"⟩ := by
    simp [login, he1, hp1, hnone]
  have g2 : (login db2 b2 s2 n2).1 = ⟨403, .errorMsg "Invalid credentials"⟩ := by
    simp [login, he2, hp2, hfind, hbad]
  exact ⟨g1, g2.trans g1.symm⟩

/-- Witness for C8: an email matching no user and the email of user 1 with
a wrong password give the identical 403 response. -/
theorem login_failure_merged_witness :
    (login dbSample ⟨some (.jstr "nobody@x.com"), some (.jstr "secret")⟩ 7 0).1
      = ⟨403, .errorMsg "Invalid credentials"⟩ ∧
    (login dbSample ⟨some (.jstr "ana@x.com"), some (.jstr "wrong")⟩ 9 5).1
      = (login dbSample ⟨some (.jstr "nobody@x.com"), some (.jstr "secret")⟩ 7 0).1 :=
  login_failure_merged dbSample dbSample
    ⟨some (.jstr "nobody@x.com"), some (.jstr "secret")⟩
    ⟨some (.jstr "ana@x.com"), some (.jstr "wrong")⟩ 7 0 9 5 anaUser
    (by decide) (by decide) (by decide) (by decide) (by decide) (by decide)
    (by decide)

/-! ## C4: auth gate statuses on the protected routes -/

/-- C4: on all three protected routes a request without a bearer token gets
exactly the 401 missing-token response, and a request whose token fails
verification — malformed, wrongly signed or expired alike — gets exactly
the one 403 invalid-or-expired response. -/
theorem auth_gate_statuses (db : DBState) (h : Option AuthHeader)
    (secret now : Nat) (id : String) (bkb : BookingBody) :
    (bearerToken h = none →
      (getBookings db h secret now).1 = ⟨401, .errorMsg "Token missing"⟩ ∧
      (getBooking db h secret now id).1 = ⟨401, .errorMsg "Token missing"⟩ ∧
      (createBooking db h secret now bkb).1 = ⟨401, .errorMsg "Token missing"⟩) ∧
    (∀ w, bearerToken h = some w → jwtVerify w secret now = none →
      (getBookings db h secret now).1
        = ⟨403, .errorMsg "Invalid or expired token"⟩ ∧
      (getBooking db h secret now id).1
        = ⟨403, .errorMsg "Invalid or expired token"⟩ ∧
      (createBooking db h secret now bkb).1
        = ⟨403, .errorMsg "Invalid or expired token"⟩) := by
  constructor
  · intro hn
    refine ⟨?_, ?_, ?_⟩ <;>
      simp [getBookings, getBooking, createBooking, authenticateToken, hn]
  · intro w hw hv
    refine ⟨?_, ?_, ?_⟩ <;>
      simp [getBookings, getBooking, createBooking, authenticateToken, hw, hv]

/-- Witness for C4: a header with no second word gets 401 on `GET /bookings`
and a well-formed token signed with the wrong secret (99 instead of 7) gets
403 on `POST /bookings`. -/
theorem auth_gate_statuses_witness :
    (getBookings dbSample (some ⟨"Bearer", none⟩) 7 0).1
      = ⟨401, .errorMsg "Token missing"⟩ ∧
    (createBooking dbSample
        (some ⟨"Bearer", some (.wellformed (jwtSign 1 (.jstr "ana@x.com") 99 0))⟩)
        7 10 ⟨some (.jnum 1), some (.jstr "2025-01-01"), none⟩).1
      = ⟨403, .errorMsg "Invalid or expired token"⟩ := by
  have a := auth_gate_statuses dbSample (some ⟨"Bearer", none⟩) 7 0 "1"
      ⟨some (.jnum 1), some (.jstr "2025-01-01"), none⟩
  have b := auth_gate_statuses dbSample
      (some ⟨"Bearer", some (.wellformed (jwtSign 1 (.jstr "ana@x.com") 99 0))⟩)
      7 10 "1" ⟨some (.jnum 1), some (.jstr "2025-01-01"), none⟩
  exact ⟨(a.1 rfl).1, (b.2 _ rfl (by decide)).2.2⟩

/-! ## C5: duplicate registration -/

/-- C5: registering with the email of an existing user never succeeds with
201 — whatever the name and password — and leaves the database, hence the
stored password hash of the existing account, unchanged. -/
theorem register_duplicate_email (db : DBState) (rb : RegisterBody)
    (salt : Nat) (u : User) (hu : u ∈ db.users)
    (he : u.email = rb.email.getD .jnull) :
    (register db rb salt).1.status ≠ 201 ∧ (register db rb salt).2 = db := by
  cases hok : (truthy rb.name && truthy rb.email && truthy rb.password) with
  | false => constructor <;> simp [register, hok]
  | true =>
      have hany : db.users.any (fun v => v.email == rb.email.getD .jnull) = true :=
        List.any_eq_true.mpr ⟨u, hu, by simp [he]⟩
      constructor <;> simp [register, hok, insertUser, hany]

/-- Witness for C5: re-registering the email of user 1 under a new name and
password returns a non-201 (500) and leaves the database unchanged. -/
theorem register_duplicate_email_witness :
    (register dbSample
        ⟨some (.jstr "Eve"), some (.jstr "ana@x.com"), some (.jstr "pw")⟩ 12).1.status
      ≠ 201 ∧
    (register dbSample
        ⟨some (.jstr "Eve"), some (.jstr "ana@x.com"), some (.jstr "pw")⟩ 12).2
      = dbSample :=
  register_duplicate_email dbSample
    ⟨some (.jstr "Eve"), some (.jstr "ana@x.com"), some (.jstr "pw")⟩ 12 anaUser
    (by decide) (by decide)

/-! ## C10: truthiness validation rejects falsy present fields -/

/-- C10: presence validation is JS truthiness, so a present but falsy field
is rejected as missing with 400 and nothing is persisted: price 0 on
`POST /cars`, car_id 0 on an authenticated `POST /bookings`, and an
empty-string field on register or login; consequently, if no car with price
the number 0 is in the catalog, none can ever enter it through the API. -/
theorem falsy_field_rejections (db : DBState) (cb : CarBody)
    (h : Option AuthHeader) (secret now salt : Nat) (w : WireToken)
    (claims : Claims) (bkb : BookingBody) (rb : RegisterBody) (lb : LoginBody) :
    (cb.price = some (.jnum 0) →
      addCar db cb
        = (⟨400, .errorMsg "Name, details and price are required"⟩, db)) ∧
    (bearerToken h = some w → jwtVerify w secret now = some claims →
      bkb.car_id = some (.jnum 0) →
      createBooking db h secret now bkb
        = (⟨400, .errorMsg "car_id and travel_date are required"⟩, db)) ∧
    ((rb.name = some (.jstr "") ∨ rb.email = some (.jstr "") ∨
        rb.password = some (.jstr "")) →
      register db rb salt
        = (⟨400, .errorMsg "Name, email and password are required"⟩, db)) ∧
    ((lb.email = some (.jstr "") ∨ lb.password = some (.jstr "")) →
      login db lb secret now
        = (⟨400, .errorMsg "Email and password are required"⟩, db)) ∧
    ((∀ c ∈ db.cars, c.price ≠ .jnum 0) →
      ∀ c ∈ (addCar db cb).2.cars, c.price ≠ .jnum 0) := by
  refine ⟨?_, ?_, ?_, ?_, ?_⟩
  · intro hp
    simp [addCar, hp, truthy]
  · intro hw hv hc
    simp [createBooking, authenticateToken, hw, hv, hc, truthy]
  · rintro (hf | hf | hf) <;> simp [register, hf, truthy]
  · rintro (hf | hf) <;> simp [login, hf, truthy]
  · intro hall c hc
    cases hok : (truthy cb.name && truthy cb.details && truthy cb.price) with
    | false =>
        simp [addCar, hok] at hc
        exact hall c hc
    | true =>
        have hok' := hok
        rw [Bool.and_eq_true, Bool.and_eq_true] at hok'
        obtain ⟨⟨h1, h2⟩, hprice⟩ := hok'
        simp [addCar, hok] at hc
        rcases hc with hc | hc
        · exact hall c hc
        · subst hc
          clear hok h1 h2
          revert hprice
          cases cb.price with
          | none => intro _; simp
          | some v =>
              intro hprice
              simpa using truthy_ne_jnum_zero hprice

/-- Witness for C10: price 0, car_id 0 (with a valid token) and empty-string
register and login fields each get their 400 with the database unchanged. -/
theorem falsy_field_rejections_witness :
    addCar dbSample ⟨some (.jstr "Civic"), some (.jstr "sedan"), some (.jnum 0)⟩
      = (⟨400, .errorMsg "Name, details and price are required"⟩, dbSample) ∧
    createBooking dbSample (some ⟨"Bearer", some (.wellformed anaTok)⟩) 7 10
        ⟨some (.jnum 0), some (.jstr "2025-01-01"), none⟩
      = (⟨400, .errorMsg "car_id and travel_date are required"⟩, dbSample) ∧
    register dbSample ⟨some (.jstr "Ana"), some (.jstr "ana@x.com"), some (.jstr "")⟩ 10
      = (⟨400, .errorMsg "Name, email and password are required"⟩, dbSample) ∧
    login dbSample ⟨some (.jstr ""), some (.jstr "secret")⟩ 7 0
      = (⟨400, .errorMsg "Email and password are required"⟩, dbSample) := by
  have h := falsy_field_rejections dbSample
      ⟨some (.jstr "Civic"), some (.jstr "sedan"), some (.jnum 0)⟩
      (some ⟨"Bearer", some (.wellformed anaTok)⟩) 7 10 10
      (.wellformed anaTok) ⟨1, .jstr "ana@x.com", 3600⟩
      ⟨some (.jnum 0), some (.jstr "2025-01-01"), none⟩
      ⟨some (.jstr "Ana"), some (.jstr "ana@x.com"), some (.jstr "")⟩
      ⟨some (.jstr ""), some (.jstr "secret")⟩
  exact ⟨h.1 rfl, h.2.1 rfl (by decide) rfl, h.2.2.1 (Or.inr (Or.inr rfl)),
    h.2.2.2.1 (Or.inl rfl)⟩

/-! ## C1: booking a nonexistent car -/

/-- C1: an authenticated create-booking request whose car_id resolves to an
integer matching no car in the catalog gets exactly the 404 car-not-found
response and leaves the database — in particular the bookings relation —
unchanged. -/
theorem create_booking_missing_car (db : DBState) (h : Option AuthHeader)
    (secret now : Nat) (bkb : BookingBody) (w : WireToken) (claims : Claims)
    (cid : Int)
    (hw : bearerToken h = some w)
    (hv : jwtVerify w secret now = some claims)
    (hc : truthy bkb.car_id = true) (hd : truthy bkb.travel_date = true)
    (hcid : pgIntParam (bkb.car_id.getD .jnull) = .ok (some cid))
    (habs : ∀ c ∈ db.cars, (c.id : Int) ≠ cid) :
    createBooking db h secret now bkb = (⟨404, .errorMsg "Car not found"⟩, db) := by
  have hfil : db.cars.filter (fun c => (c.id : Int) == cid) = [] :=
    List.filter_eq_nil_iff.mpr (fun c hcmem => by simpa using habs c hcmem)
  simp [createBooking, authenticateToken, hw, hv, hc, hd, hcid, hfil]

/-- Witness for C1: booking car 9999 (absent) with a valid token for user 1
yields 404 and the unchanged database. -/
theorem create_booking_missing_car_witness :
    createBooking dbSample (some ⟨"Bearer", some (.wellformed anaTok)⟩) 7 10
        ⟨some (.jnum 9999), some (.jstr "2025-01-01"), none⟩
      = (⟨404, .errorMsg "Car not found"⟩, dbSample) :=
  create_booking_missing_car dbSample (some ⟨"Bearer", some (.wellformed anaTok)⟩)
    7 10 ⟨some (.jnum 9999), some (.jstr "2025-01-01"), none⟩
    (.wellformed anaTok) ⟨1, .jstr "ana@x.com", 3600⟩ 9999
    rfl (by decide) (by decide) (by decide) rfl (by decide)

/-! ## C2: the booking owner is the token identity -/

/-- C2: every booking row present after an authenticated create-booking
request either was there before or carries `user_id` equal to the id in the
verified token claims; moreover the handler result is invariant under the
client-supplied `user_id` body field, for every body. -/
theorem booking_owner_from_token (db : DBState) (h : Option AuthHeader)
    (secret now : Nat) (bkb : BookingBody) (v : Option JVal)
    (w : WireToken) (claims : Claims)
    (hw : bearerToken h = some w)
    (hv : jwtVerify w secret now = some claims) :
    (∀ bk ∈ (createBooking db h secret now bkb).2.bookings,
        bk ∈ db.bookings ∨ bk.user_id = claims.id) ∧
    createBooking db h secret now bkb
      = createBooking db h secret now ⟨bkb.car_id, bkb.travel_date, v⟩ := by
  refine ⟨?_, rfl⟩
  intro bk hbk
  simp only [createBooking, authenticateToken, hw, hv] at hbk
  cases hok : (truthy bkb.car_id && truthy bkb.travel_date) with
  | false =>
      simp [hok] at hbk
      exact Or.inl hbk
  | true =>
      cases hp : pgIntParam (bkb.car_id.getD .jnull) with
      | error e =>
          simp [hok, hp] at hbk
          exact Or.inl hbk
      | ok o =>
          cases o with
          | none =>
              simp [hok, hp] at hbk
              exact Or.inl hbk
          | some cid =>
              cases hfil : db.cars.filter (fun c => (c.id : Int) == cid) with
              | nil =>
                  simp [hok, hp, hfil] at hbk
                  exact Or.inl hbk
              | cons a l =>
                  cases hins : insertBooking db claims.id cid.toNat
                      (bkb.travel_date.getD .jnull) with
                  | error e =>
                      simp [hok, hp, hfil, hins] at hbk
                      exact Or.inl hbk
                  | ok db' =>
                      simp only [hok, hp, hfil, hins] at hbk
                      have hbs : db'.bookings = db.bookings ++
                          [⟨db.nextBookingId, claims.id, cid.toNat,
                            bkb.travel_date.getD .jnull⟩] := by
                        unfold insertBooking at hins
                        split at hins
                        · injection hins with h2
                          rw [← h2]
                        · exact Except.noConfusion hins
                      simp only [Bool.not_true] at hbk
                      rw [if_neg (by simp)] at hbk
                      simp only [hbs, List.mem_append, List.mem_singleton] at hbk
                      rcases hbk with hbk | hbk
                      · exact Or.inl hbk
                      · right
                        rw [hbk]

/-- Witness for C2: a booking created by user 1 whose request body smuggles
`user_id: 42`; the new row belongs to user 1 and the response and state
equal those of the same request without the `user_id` field. -/
theorem booking_owner_from_token_witness :
    (∀ bk ∈ (createBooking dbSample (some ⟨"Bearer", some (.wellformed anaTok)⟩)
        7 10 ⟨some (.jnum 1), some (.jstr "2025-03-04"), some (.jnum 42)⟩).2.bookings,
        bk ∈ dbSample.bookings ∨ bk.user_id = 1) ∧
    createBooking dbSample (some ⟨"Bearer", some (.wellformed anaTok)⟩) 7 10
        ⟨some (.jnum 1), some (.jstr "2025-03-04"), some (.jnum 42)⟩
      = createBooking dbSample (some ⟨"Bearer", some (.wellformed anaTok)⟩) 7 10
        ⟨some (.jnum 1), some (.jstr "2025-03-04"), none⟩ :=
  booking_owner_from_token dbSample (some ⟨"Bearer", some (.wellformed anaTok)⟩)
    7 10 ⟨some (.jnum 1), some (.jstr "2025-03-04"), some (.jnum 42)⟩ none
    (.wellformed anaTok) ⟨1, .jstr "ana@x.com", 3600⟩ rfl (by decide)

/-! ## C3: reading the booking of another user -/

/-- C3: under unique booking ids, a `GET /bookings/:id` by an authenticated
user who does not own booking `bk` returns exactly the 404 not-found
response, identical to the response for an id held by no booking at all —
never a 403. -/
theorem booking_read_isolation (db : DBState) (h : Option AuthHeader)
    (secret now : Nat) (w : WireToken) (claims : Claims) (bk : Booking)
    (bidStr nidStr : String) (nid : Int)
    (hw : bearerToken h = some w)
    (hv : jwtVerify w secret now = some claims)
    (hbk : bk ∈ db.bookings) (howner : bk.user_id ≠ claims.id)
    (huniq : ∀ b' ∈ db.bookings, b'.id = bk.id → b' = bk)
    (hbid : pgParseInt bidStr = some (bk.id : Int))
    (hnid : pgParseInt nidStr = some nid)
    (hnone : ∀ b' ∈ db.bookings, (b'.id : Int) ≠ nid) :
    getBooking db h secret now bidStr
      = (⟨404, .errorMsg "Booking not found"⟩, db) ∧
    getBooking db h secret now bidStr = getBooking db h secret now nidStr := by
  have hq1 : db.bookings.filter
      (fun b => (b.id : Int) == (bk.id : Int) && b.user_id == claims.id) = [] := by
    refine List.filter_eq_nil_iff.mpr ?_
    intro b' hb' hpred
    rw [Bool.and_eq_true] at hpred
    obtain ⟨hid, huid⟩ := hpred
    have hideq : b'.id = bk.id := by exact_mod_cast beq_iff_eq.mp hid
    have hbeq : b' = bk := huniq b' hb' hideq
    exact howner (hbeq ▸ beq_iff_eq.mp huid)
  have hq2 : db.bookings.filter
      (fun b => (b.id : Int) == nid && b.user_id == claims.id) = [] := by
    refine List.filter_eq_nil_iff.mpr ?_
    intro b' hb' hpred
    rw [Bool.and_eq_true] at hpred
    exact hnone b' hb' (beq_iff_eq.mp hpred.1)
  constructor
  · simp [getBooking, authenticateToken, hw, hv, hbid, getBookingQuery, hq1]
  · simp [getBooking, authenticateToken, hw, hv, hbid, hnid, getBookingQuery,
      hq1, hq2]

/-- Witness for C3: user 2 requesting booking 1 (owned by user 1) and
requesting the absent booking 999 gets the identical 404 response. -/
theorem booking_read_isolation_witness :
    getBooking dbSample (some ⟨"Bearer", some (.wellformed bobTok)⟩) 7 10 "1"
      = (⟨404, .errorMsg "Booking not found"⟩, dbSample) ∧
    getBooking dbSample (some ⟨"Bearer", some (.wellformed bobTok)⟩) 7 10 "1"
      = getBooking dbSample (some ⟨"Bearer", some (.wellformed bobTok)⟩) 7 10 "999" :=
  booking_read_isolation dbSample (some ⟨"Bearer", some (.wellformed bobTok)⟩)
    7 10 (.wellformed bobTok) ⟨2, .jstr "hunter@x.com", 3600⟩ anaBooking
    "1" "999" 999 rfl (by decide) (by decide) (by decide) (by decide)
    (by decide) (by decide) (by decide)

/-! ## C9: no uniqueness or capacity constraint on bookings -/

/-- Success path of `POST /bookings`: an authenticated request for an
existing car (nonzero id) and a DATE-literal travel date returns 201 and
appends exactly one booking row owned by the token identity. -/
theorem createBooking_success (db : DBState) (h : Option AuthHeader)
    (secret now : Nat) (w : WireToken) (claims : Claims) (car : Car)
    (date : JVal)
    (hw : bearerToken h = some w)
    (hv : jwtVerify w secret now = some claims)
    (hu : ∃ u ∈ db.users, u.id = claims.id)
    (hcar : car ∈ db.cars) (hcid : (car.id : Int) ≠ 0)
    (hdate : isDateLit date = true) :
    createBooking db h secret now ⟨some (.jnum (car.id : Int)), some date, none⟩
      = (⟨201, .message "Booking created successfully"⟩,
         { db with
           bookings := db.bookings ++ [⟨db.nextBookingId, claims.id, car.id, date⟩],
           nextBookingId := db.nextBookingId + 1 }) := by
  obtain ⟨u, hum, huid⟩ := hu
  have ht1 : truthy (some (.jnum (car.id : Int))) = true := by
    simp [truthy, hcid]
  have ht2 : truthy (some date) = true := isDateLit_truthy hdate
  have htn : (car.id : Int).toNat = car.id := Int.toNat_natCast car.id
  have hcond : (db.users.any (fun v => v.id == claims.id) &&
      db.cars.any (fun c => c.id == (car.id : Int).toNat) &&
      isDateLit date) = true := by
    rw [Bool.and_eq_true, Bool.and_eq_true]
    refine ⟨⟨List.any_eq_true.mpr ⟨u, hum, by simp [huid]⟩,
      List.any_eq_true.mpr ⟨car, hcar, by simp [htn]⟩⟩, hdate⟩
  have hins : insertBooking db claims.id (car.id : Int).toNat date
      = .ok { db with
              bookings := db.bookings ++
                [⟨db.nextBookingId, claims.id, (car.id : Int).toNat, date⟩],
              nextBookingId := db.nextBookingId + 1 } := by
    unfold insertBooking
    rw [if_pos hcond]
  rw [htn] at hins
  cases hfil : db.cars.filter (fun c => (c.id : Int) == (car.id : Int)) with
  | nil =>
      have : car ∈ db.cars.filter (fun c => (c.id : Int) == (car.id : Int)) :=
        List.mem_filter.mpr ⟨hcar, by simp⟩
      rw [hfil] at this
      exact absurd this (List.not_mem_nil car)
  | cons a l =>
      simp [createBooking, authenticateToken, pgIntParam, hw, hv, ht1, ht2,
        hfil, htn, hins]

/-- C9: no uniqueness or capacity constraint on (car_id, travel_date): two
authenticated create-booking requests for the same existing car and the
same date — by the same user or different users — both succeed with 201
and both rows are persisted. -/
theorem double_booking_same_car_date (db : DBState) (h1 h2 : Option AuthHeader)
    (secret now1 now2 : Nat) (w1 w2 : WireToken) (c1 c2 : Claims)
    (car : Car) (date : JVal)
    (hw1 : bearerToken h1 = some w1)
    (hv1 : jwtVerify w1 secret now1 = some c1)
    (hw2 : bearerToken h2 = some w2)
    (hv2 : jwtVerify w2 secret now2 = some c2)
    (hu1 : ∃ u ∈ db.users, u.id = c1.id) (hu2 : ∃ u ∈ db.users, u.id = c2.id)
    (hcar : car ∈ db.cars) (hcid : (car.id : Int) ≠ 0)
    (hdate : isDateLit date = true) :
    (createBooking db h1 secret now1
        ⟨some (.jnum (car.id : Int)), some date, none⟩).1.status = 201 ∧
    (createBooking
        (createBooking db h1 secret now1
          ⟨some (.jnum (car.id : Int)), some date, none⟩).2
        h2 secret now2 ⟨some (.jnum (car.id : Int)), some date, none⟩).1.status
      = 201 ∧
    (createBooking
        (createBooking db h1 secret now1
          ⟨some (.jnum (car.id : Int)), some date, none⟩).2
        h2 secret now2 ⟨some (.jnum (car.id : Int)), some date, none⟩).2.bookings
      = db.bookings ++
        [⟨db.nextBookingId, c1.id, car.id, date⟩,
         ⟨db.nextBookingId + 1, c2.id, car.id, date⟩] := by
  have e1 := createBooking_success db h1 secret now1 w1 c1 car date
    hw1 hv1 hu1 hcar hcid hdate
  have e2 := createBooking_success
    { db with
      bookings := db.bookings ++ [⟨db.nextBookingId, c1.id, car.id, date⟩],
      nextBookingId := db.nextBookingId + 1 }
    h2 secret now2 w2 c2 car date hw2 hv2 hu2 hcar hcid hdate
  refine ⟨by rw [e1], ?_, ?_⟩
  · rw [e1]
    simp only []
    rw [e2]
  · rw [e1]
    simp only []
    rw [e2]
    simp

/-- Witness for C9: users 1 and 2 both book car 1 for 2025-07-01; both get
201 and the bookings relation gains the two rows. -/
theorem double_booking_same_car_date_witness :
    (createBooking dbSample (some ⟨"Bearer", some (.wellformed anaTok)⟩) 7 10
        ⟨some (.jnum 1), some (.jstr "2025-07-01"), none⟩).1.status = 201 ∧
    (createBooking
        (createBooking dbSample (some ⟨"Bearer", some (.wellformed anaTok)⟩) 7 10
          ⟨some (.jnum 1), some (.jstr "2025-07-01"), none⟩).2
        (some ⟨"Bearer", some (.wellformed bobTok)⟩) 7 20
        ⟨some (.jnum 1), some (.jstr "2025-07-01"), none⟩).1.status = 201 ∧
    (createBooking
        (createBooking dbSample (some ⟨"Bearer", some (.wellformed anaTok)⟩) 7 10
          ⟨some (.jnum 1), some (.jstr "2025-07-01"), none⟩).2
        (some ⟨"Bearer", some (.wellformed bobTok)⟩) 7 20
        ⟨some (.jnum 1), some (.jstr "2025-07-01"), none⟩).2.bookings
      = dbSample.bookings ++
        [⟨2, 1, 1, .jstr "2025-07-01"⟩, ⟨3, 2, 1, .jstr "2025-07-01"⟩] :=
  double_booking_same_car_date dbSample
    (some ⟨"Bearer", some (.wellformed anaTok)⟩)
    (some ⟨"Bearer", some (.wellformed bobTok)⟩) 7 10 20
    (.wellformed anaTok) (.wellformed bobTok)
    ⟨1, .jstr "ana@x.com", 3600⟩ ⟨2, .jstr "hunter@x.com", 3600⟩
    civicCar (.jstr "2025-07-01") rfl (by decide) rfl (by decide)
    (by decide) (by decide) (by decide) (by decide) (by decide)
